import Mathlib

/-!
Shallow embedding of the quiz grading, answer-normalization, analytics and
attempt-lifecycle logic of the quizapp backend.

Sources embedded:
* `src/routes/student.js` — quiz detail view, attempt start, attempt submit
  (grading engine: lines 265-396).
* `src/unnamed/part_001` — teacher question-level analytics
  (`GET /analysis/quiz/:quiz_id/questions`, lines 826-900).
* `src/config/createEnv.js` — table shapes (column types, defaults, the
  UNIQUE KEY on `quiz_attempts (quiz_id, student_id)`).

Modelling conventions:
* JavaScript values reachable in the grading paths (JSON bodies and JSON
  columns) are modelled by the inductive `JSVal`.  JSON/JS numbers are
  modelled as integers; floating-point values are outside the model.
* Machine strings are Lean `String`s.  `String.trim`/`String.toLower`
  model JS `trim()`/`toLowerCase()`; the divergence on non-ASCII case
  folding and exotic Unicode whitespace is outside the model.
* Fallible operations (`JSON.parse`) return `Option`; a `none` result
  models a thrown exception that the source catches.
* Property access on `null`/`undefined` throws in JS; wherever the model
  returns `.undefined` instead, the surrounding `try`/`catch` of the
  source makes the observable result identical (the catch branch and the
  falsy-miss branch coincide), as noted at each site.
-/

/-- A JavaScript value as it can appear in a request body or in a JSON
column read back from MySQL.  Numbers are modelled as integers. -/
inductive JSVal where
  | undefined : JSVal
  | null : JSVal
  | bool (b : Bool) : JSVal
  | num (n : Int) : JSVal
  | str (s : String) : JSVal
  | arr (xs : List JSVal) : JSVal
  | obj (fields : List (String × JSVal)) : JSVal
deriving Repr

/-- JS truthiness on the modelled values: `undefined`, `null`, `false`,
`0` and `""` are falsy, everything else (including `[]` and `{}`) truthy. -/
def JSVal.truthy : JSVal → Bool
  | .undefined => false
  | .null => false
  | .bool b => b
  | .num n => n != 0
  | .str s => s ≠ ""
  | .arr _ => true
  | .obj _ => true

/-- `typeof v === 'object'` (true for objects, arrays and `null`). -/
def JSVal.isObjectType : JSVal → Bool
  | .null => true
  | .arr _ => true
  | .obj _ => true
  | _ => false

mutual
/-- JS `toString()` on the modelled values.  Arrays stringify as their
comma-joined elements (`Array.prototype.join`), objects as
`"[object Object]"`. -/
def JSVal.toStr : JSVal → String
  | .undefined => "undefined"
  | .null => "null"
  | .bool true => "true"
  | .bool false => "false"
  | .num n => toString n
  | .str s => s
  | .arr xs => String.intercalate "," (JSVal.toStrElems xs)
  | .obj _ => "[object Object]"

/-- Elements of an array under `join`: `null`/`undefined` become `""`. -/
def JSVal.toStrElems : List JSVal → List String
  | [] => []
  | .undefined :: rest => "" :: JSVal.toStrElems rest
  | .null :: rest => "" :: JSVal.toStrElems rest
  | v :: rest => JSVal.toStr v :: JSVal.toStrElems rest
end

/-- JS `||`: the left operand if truthy, otherwise the right. -/
def jsOr (a b : JSVal) : JSVal := if a.truthy then a else b

/-- Lookup of a string key in a modelled JS object (fields have unique
keys as produced by `Json.parse`); missing keys read as `undefined`. -/
def objGet (fields : List (String × JSVal)) (k : String) : JSVal :=
  match fields.find? (fun p => p.1 == k) with
  | some p => p.2
  | none => .undefined

/-- A canonical array-index string: `"0"`, `"1"`, ... with no sign, no
leading zeros.  JS arrays expose elements only under such keys. -/
def parseCanonicalNat (s : String) : Option Nat :=
  match s.toList with
  | [] => none
  | cs =>
    if cs.all Char.isDigit then
      match cs with
      | '0' :: _ :: _ => none
      | _ => some (cs.foldl (fun n c => n * 10 + (c.toNat - '0'.toNat)) 0)
    else none

/-- JS property read `v[k]` for a string key `k`.  On `null`/`undefined`
this would throw; the `.undefined` result here is observationally equal in
every embedded context because the source wraps the access in
`try`/`catch` whose catch branch coincides with the falsy-miss branch. -/
def jsGetProp : JSVal → String → JSVal
  | .obj fields, k => objGet fields k
  | .arr xs, k =>
    match parseCanonicalNat k with
    | some n => match xs.get? n with
      | some v => v
      | none => .undefined
    | none => .undefined
  | .str s, k =>
    match parseCanonicalNat k with
    | some n => match s.toList.get? n with
      | some c => .str (String.mk [c])
      | none => .undefined
    | none => .undefined
  | _, _ => .undefined

/-- JS property read `v[i]` for an integer key (as in
`options[correctOptionIndex]`): negative or out-of-range indices read as
`undefined`; objects are indexed by the decimal string of `i`. -/
def jsIndex (v : JSVal) (i : Int) : JSVal :=
  match v with
  | .arr xs =>
    if i < 0 then .undefined
    else match xs.get? i.toNat with
      | some x => x
      | none => .undefined
  | .str s =>
    if i < 0 then .undefined
    else match s.toList.get? i.toNat with
      | some c => .str (String.mk [c])
      | none => .undefined
  | .obj fields => objGet fields (toString i)
  | _ => .undefined

/-- Numeric value of a list of base-`base` digit characters. -/
def digitsVal (base : Nat) (digVal : Char → Nat) (cs : List Char) : Nat :=
  cs.foldl (fun n c => n * base + digVal c) 0

def isHexDigitChar (c : Char) : Bool :=
  c.isDigit || ('a' ≤ c && c ≤ 'f') || ('A' ≤ c && c ≤ 'F')

def hexDigitVal (c : Char) : Nat :=
  if c.isDigit then c.toNat - '0'.toNat
  else if 'a' ≤ c && c ≤ 'f' then c.toNat - 'a'.toNat + 10
  else c.toNat - 'A'.toNat + 10

/-- JS `parseInt(s)` (no radix argument): skip leading whitespace, take an
optional sign, then either a `0x`/`0X` hex literal or the longest prefix
of decimal digits; `none` models `NaN` (no digits consumed). -/
def jsParseInt (s : String) : Option Int :=
  let cs := s.toList.dropWhile Char.isWhitespace
  let (sign, cs₁) : Int × List Char :=
    match cs with
    | '-' :: rest => (-1, rest)
    | '+' :: rest => (1, rest)
    | _ => (1, cs)
  match cs₁ with
  | '0' :: x :: rest =>
    if x = 'x' ∨ x = 'X' then
      let ds := rest.takeWhile isHexDigitChar
      if ds.isEmpty then none
      else some (sign * (digitsVal 16 hexDigitVal ds : Nat))
    else
      let ds := cs₁.takeWhile Char.isDigit
      some (sign * (digitsVal 10 (fun c => c.toNat - '0'.toNat) ds : Nat))
  | _ =>
    let ds := cs₁.takeWhile Char.isDigit
    if ds.isEmpty then none
    else some (sign * (digitsVal 10 (fun c => c.toNat - '0'.toNat) ds : Nat))

namespace Json

/-- JSON whitespace. -/
def isJsonWs (c : Char) : Bool :=
  c = ' ' ∨ c = '\t' ∨ c = '\n' ∨ c = '\r'

def dropWs (cs : List Char) : List Char := cs.dropWhile isJsonWs

/-- Decode one escape character of a JSON string literal
(the char after the backslash, `\u` handled separately). -/
def unescapeChar : Char → Option Char
  | '"' => some '"'
  | '\\' => some '\\'
  | '/' => some '/'
  | 'b' => some (Char.ofNat 8)
  | 'f' => some (Char.ofNat 12)
  | 'n' => some '\n'
  | 'r' => some '\r'
  | 't' => some '\t'
  | _ => none

/-- Parse the remainder of a JSON string literal (the opening quote is
already consumed), handling the standard escapes.  `\uXXXX` is decoded as
a raw code point; surrogate pairs are outside the model. -/
def pStringRest : Nat → List Char → Option (List Char × List Char)
  | 0, _ => none
  | _ + 1, [] => none
  | _ + 1, '"' :: rest => some ([], rest)
  | fuel + 1, '\\' :: esc =>
    (match esc with
     | 'u' :: h1 :: h2 :: h3 :: h4 :: rest =>
       if isHexDigitChar h1 && isHexDigitChar h2 && isHexDigitChar h3 && isHexDigitChar h4 then
         (pStringRest fuel rest).map
           (fun p => (Char.ofNat (digitsVal 16 hexDigitVal [h1, h2, h3, h4]) :: p.1, p.2))
       else none
     | e :: rest =>
       match unescapeChar e with
       | some c => (pStringRest fuel rest).map (fun p => (c :: p.1, p.2))
       | none => none
     | [] => none)
  | fuel + 1, c :: rest =>
    (pStringRest fuel rest).map (fun p => (c :: p.1, p.2))

/-- Set a field in an object under construction: JSON duplicate keys keep
the first position but the last value. -/
def setField (fields : List (String × JSVal)) (k : String) (v : JSVal) :
    List (String × JSVal) :=
  if fields.any (fun p => p.1 == k) then
    fields.map (fun p => if p.1 == k then (k, v) else p)
  else fields ++ [(k, v)]

/-- Parse a JSON number.  Only integer literals are in the model: a
fractional part or exponent makes the parse fail (floating point is
outside the model). -/
def pNum (cs : List Char) : Option (Int × List Char) :=
  let (sign, cs₁) : Int × List Char :=
    match cs with
    | '-' :: rest => (-1, rest)
    | _ => (1, cs)
  let ds := cs₁.takeWhile Char.isDigit
  let rest := cs₁.dropWhile Char.isDigit
  if ds.isEmpty then none
  else match rest with
    | '.' :: _ => none
    | 'e' :: _ => none
    | 'E' :: _ => none
    | _ => some (sign * (digitsVal 10 (fun c => c.toNat - '0'.toNat) ds : Nat), rest)

mutual
/-- Parse one JSON value from the head of the character stream. -/
def pVal : Nat → List Char → Option (JSVal × List Char)
  | 0, _ => none
  | fuel + 1, cs =>
    match dropWs cs with
    | [] => none
    | 'n' :: 'u' :: 'l' :: 'l' :: rest => some (.null, rest)
    | 't' :: 'r' :: 'u' :: 'e' :: rest => some (.bool true, rest)
    | 'f' :: 'a' :: 'l' :: 's' :: 'e' :: rest => some (.bool false, rest)
    | '"' :: rest =>
      (pStringRest fuel rest).map (fun p => (.str (String.mk p.1), p.2))
    | '[' :: rest =>
      (match dropWs rest with
       | ']' :: rest' => some (.arr [], rest')
       | _ => (pItems fuel rest).map (fun p => (.arr p.1, p.2)))
    | '{' :: rest =>
      (match dropWs rest with
       | '}' :: rest' => some (.obj [], rest')
       | _ => (pFields fuel rest []).map (fun p => (.obj p.1, p.2)))
    | cs' => (pNum cs').map (fun p => (.num p.1, p.2))

/-- Parse the elements of a non-empty JSON array (after `[`). -/
def pItems : Nat → List Char → Option (List JSVal × List Char)
  | 0, _ => none
  | fuel + 1, cs =>
    match pVal fuel cs with
    | none => none
    | some (v, rest) =>
      match dropWs rest with
      | ',' :: rest' =>
        (pItems fuel rest').map (fun p => (v :: p.1, p.2))
      | ']' :: rest' => some ([v], rest')
      | _ => none

/-- Parse the members of a non-empty JSON object (after `{`),
accumulating fields with last-value-wins duplicate handling. -/
def pFields : Nat → List Char → List (String × JSVal) →
    Option (List (String × JSVal) × List Char)
  | 0, _, _ => none
  | fuel + 1, cs, acc =>
    match dropWs cs with
    | '"' :: rest =>
      (match pStringRest fuel rest with
       | none => none
       | some (k, rest₁) =>
         match dropWs rest₁ with
         | ':' :: rest₂ =>
           (match pVal fuel rest₂ with
            | none => none
            | some (v, rest₃) =>
              let acc' := setField acc (String.mk k) v
              match dropWs rest₃ with
              | ',' :: rest₄ => pFields fuel rest₄ acc'
              | '}' :: rest₄ => some (acc', rest₄)
              | _ => none)
         | _ => none)
    | _ => none

end

/-- The model of `JSON.parse`: `none` models a thrown `SyntaxError`. -/
def parse (s : String) : Option JSVal :=
  match pVal (s.length + 1) s.toList with
  | some (v, rest) => if dropWs rest = [] then some v else none
  | none => none

end Json

/-! ## Data model (from `src/config/createEnv.js`) -/

/-- A row of `questions`.  `marks INT NOT NULL` is modelled as `Nat`
following the data-model invariant `marks ≥ 0`; `options JSON` is the
stored column value (`.null` for SQL NULL, `.str` when the driver hands
the JSON column back as its serialized text, `.arr`/`.obj` when it hands
it back deserialized); `correct_answer TEXT` is nullable. -/
structure Question where
  id : Nat
  quiz_id : Nat
  question_type : String
  marks : Nat
  options : JSVal
  correct_answer : Option String
deriving Repr

/-- A row of `quizzes` (the fields the embedded routes read).
`start_date`/`end_date DATETIME` are nullable timestamps modelled as
integers; `total_marks INT NOT NULL`. -/
structure Quiz where
  id : Nat
  subject_id : Nat
  total_marks : Int
  is_active : Bool
  start_date : Option Int
  end_date : Option Int
deriving Repr

/-- A row of `quiz_attempts`: unique per (quiz_id, student_id), with
schema defaults `score 0`, `percentage 0`, `answers NULL`,
`submitted_at NULL`.  The serialized `answers` column is modelled as the
stored `JSVal` (the analytics reader accepts both the string and the
structured representation, so `JSON.stringify` is modelled as identity). -/
structure Attempt where
  id : Nat
  quiz_id : Nat
  student_id : Nat
  submitted_at : Option Int
  score : Nat
  percentage : ℚ
  answers : JSVal
deriving Repr

/-! ## Answer normalizer and option resolver (from `src/routes/student.js`
lines 329-374 and `src/unnamed/part_001` lines 848-885) -/

/-- The whitespace class of JS `trim()` (ASCII part; exotic Unicode
space characters are outside the model). -/
def jsIsSpace (c : Char) : Bool :=
  c = ' ' ∨ c = '\t' ∨ c = '\n' ∨ c = '\r' ∨ c = Char.ofNat 11 ∨ c = Char.ofNat 12

/-- JS `s.trim()`: strip leading and trailing whitespace. -/
def jsTrim (s : String) : String :=
  String.mk (((s.toList.dropWhile jsIsSpace).reverse.dropWhile jsIsSpace).reverse)

/-- JS `s.toLowerCase()` (ASCII case folding; non-ASCII folding is
outside the model). -/
def jsToLower (s : String) : String := String.mk (s.toList.map Char.toLower)

/-- `s.toString().trim().toLowerCase()` on a string. -/
def normalizeStr (s : String) : String := jsToLower (jsTrim s)

/-- `v.toString().trim().toLowerCase()` on a JS value. -/
def normalizeVal (v : JSVal) : String := jsToLower (jsTrim v.toStr)

/-- `question.correct_answer ? question.correct_answer.toString().trim().toLowerCase() : ''`:
a NULL or empty (falsy) `correct_answer` yields the empty string, which
equals the normalization of the empty string. -/
def normCorrect (q : Question) : String := normalizeStr (q.correct_answer.getD "")

/-- `typeof question.options === 'string' ? JSON.parse(question.options) : question.options`
inside the `try`: `none` models the thrown `SyntaxError` on a string that
fails to parse. -/
def deserializeOptions : JSVal → Option JSVal
  | .str s => Json.parse s
  | v => some v

/-- `answers[index] || answers[index.toString()] || answers[`question-${index}`] || ''`
(student.js line 332, part_001 line 849).  On a plain JS object or array,
`answers[index]` with a numeric `index` and `answers[index.toString()]`
read the same property, so the first two candidates coincide. -/
def getStudentAnswer (answers : JSVal) (index : Nat) : JSVal :=
  jsOr (jsGetProp answers (toString index))
    (jsOr (jsGetProp answers (toString index))
      (jsOr (jsGetProp answers ("question-" ++ toString index)) (.str "")))

/-! ## Grading engine (`POST /quizzes/:id/submit`, student.js lines 326-374) -/

/-- The marks one question at ordinal `index` contributes to `totalScore`
in the submit handler's `questions.forEach((question, index) => ...)`
loop.  The outer per-question `try`/`catch` is modelled by totality; the
inner `catch (parseError)` around `JSON.parse(question.options)` is the
`none` branch of `deserializeOptions` and contributes nothing (it only
logs — in particular there is no literal-text fallback there). -/
def questionCredit (q : Question) (index : Nat) (answers : JSVal) : Nat :=
  let sa := getStudentAnswer answers index
  if sa.truthy ∧ jsTrim sa.toStr ≠ "" then
    let nS := normalizeVal sa
    let nC := normCorrect q
    if nC = "" then 0
    else if q.question_type = "mcq" ∧ q.options.truthy then
      match deserializeOptions q.options with
      | none => 0
      | some opts =>
        if nS = nC then q.marks
        else
          match jsParseInt nC with
          | none => 0
          | some idx =>
            let opt := jsIndex opts idx
            if opt.truthy ∧ nS = normalizeVal opt then q.marks else 0
    else if nS = nC then q.marks else 0
  else 0

/-- `questions.forEach((question, index) => ...)` accumulating
`totalScore`, with the ordinal threaded from `start`. -/
def gradeScoreAux (answers : JSVal) : List Question → Nat → Nat
  | [], _ => 0
  | q :: qs, i => questionCredit q i answers + gradeScoreAux answers qs (i + 1)

/-- `totalScore` for a full question list (ordinals starting at 0). -/
def gradeScore (questions : List Question) (answers : JSVal) : Nat :=
  gradeScoreAux answers questions 0

/-- `x.toFixed(2)` on a non-negative number, as exact arithmetic:
round half up to 2 decimal places.  (Binary-double representation
anomalies of `toFixed` are outside the model.) -/
def toFixed2 (x : ℚ) : ℚ := (⌊x * 100 + 1 / 2⌋ : ℚ) / 100

/-- `quiz.total_marks > 0 ? Math.min(100, ((totalScore / quiz.total_marks) * 100)).toFixed(2) : 0`
(student.js lines 376-378). -/
def computePercentage (totalScore : Nat) (total_marks : Int) : ℚ :=
  if total_marks > 0 then
    toFixed2 (min 100 ((totalScore : ℚ) / (total_marks : ℚ) * 100))
  else 0

/-! ## Question analytics (`GET /analysis/quiz/:quiz_id/questions`,
part_001 lines 826-900) -/

/-- Lines 832-846: recover the answers mapping of one stored attempt.
`none` models the `return` that skips the attempt after a JSON parse
error; a falsy or non-object stored value leaves the initial `{}`. -/
def attemptAnswersVal (stored : JSVal) : Option JSVal :=
  if stored.truthy then
    match stored with
    | .str s => Json.parse s
    | .arr xs => some (.arr xs)
    | .obj fs => some (.obj fs)
    | _ => some (.obj [])
  else some (.obj [])

/-- Lines 848-885: whether one attempt's (already recovered) answers
mapping is tallied as correct for `question` at ordinal `index`.  Unlike
the grading engine, there is no blank-after-trim guard and no
empty-correct-answer guard, the option-index path requires
`Array.isArray(options)`, and the `catch (optionError)` falls back to the
direct literal comparison. -/
def analyticsTally (q : Question) (index : Nat) (answers : JSVal) : Bool :=
  let sa := getStudentAnswer answers index
  if sa.truthy then
    let nS := normalizeVal sa
    let nC := normCorrect q
    if q.question_type = "mcq" ∧ q.options.truthy then
      match deserializeOptions q.options with
      | none => nS = nC
      | some opts =>
        if nS = nC then true
        else
          match opts with
          | .arr xs =>
            (match jsParseInt nC with
             | none => false
             | some idx =>
               let opt := jsIndex (.arr xs) idx
               opt.truthy ∧ nS = normalizeVal opt)
          | _ => false
    else nS = nC
  else false

/-- Whether one stored attempt row is counted into `correctCount`
(parse-skipped attempts count as not correct but stay in
`totalAttempts`). -/
def attemptCountsCorrect (q : Question) (index : Nat) (stored : JSVal) : Bool :=
  match attemptAnswersVal stored with
  | none => false
  | some answers => analyticsTally q index answers

/-- One element of the route's `questionAnalysis` response:
`(correct_answers, total_attempts, accuracy_percentage)` for `question`
at ordinal `index` over the stored `answers` column of every submitted
attempt (lines 826-900). -/
def analyzeQuestion (q : Question) (index : Nat) (attemptAnswers : List JSVal) :
    Nat × Nat × ℚ :=
  let correctCount := (attemptAnswers.filter (attemptCountsCorrect q index)).length
  let totalAttempts := attemptAnswers.length
  let accuracy :=
    if totalAttempts > 0 then
      toFixed2 (min 100 ((correctCount : ℚ) / (totalAttempts : ℚ) * 100))
    else 0
  (correctCount, totalAttempts, accuracy)

/-! ## Attempt lifecycle: database state and route handlers
(`src/routes/student.js` lines 75-396) -/

/-- The slice of database state the embedded routes touch.  `enrollments`
holds `(student_id, subject_id)` pairs of `student_subjects`. -/
structure Db where
  quizzes : List Quiz
  questions : List Question
  attempts : List Attempt
  enrollments : List (Nat × Nat)
  nextAttemptId : Nat
deriving Repr

/-- `SELECT * FROM quizzes WHERE id = ?`. -/
def findQuiz (db : Db) (quizId : Nat) : Option Quiz :=
  db.quizzes.find? (fun q => q.id == quizId)

/-- `SELECT * FROM student_subjects WHERE student_id = ? AND subject_id = ?`
(nonempty result). -/
def enrolled (db : Db) (studentId subjectId : Nat) : Bool :=
  db.enrollments.any (fun p => p.1 == studentId && p.2 == subjectId)

/-- `SELECT * FROM quiz_attempts WHERE quiz_id = ? AND student_id = ?`
(first row; the UNIQUE KEY makes it unique). -/
def findAttempt (db : Db) (quizId studentId : Nat) : Option Attempt :=
  db.attempts.find? (fun a => a.quiz_id == quizId && a.student_id == studentId)

/-- `SELECT * FROM questions WHERE quiz_id = ? ORDER BY id`. -/
def questionsFor (db : Db) (quizId : Nat) : List Question :=
  (db.questions.filter (fun q => q.quiz_id == quizId)).mergeSort
    (fun a b => a.id ≤ b.id)

/-- The fresh attempt row produced by
`INSERT INTO quiz_attempts (quiz_id, student_id) VALUES (?, ?)` with the
schema defaults. -/
def newAttempt (db : Db) (quizId studentId : Nat) : Attempt :=
  { id := db.nextAttemptId, quiz_id := quizId, student_id := studentId,
    submitted_at := none, score := 0, percentage := 0, answers := .null }

/-- The INSERT against the `UNIQUE KEY unique_attempt (quiz_id, student_id)`:
fails (duplicate-key error, modelled as `.error ()`) exactly when a row
for the pair exists in the state the INSERT runs against. -/
def insertAttempt (db : Db) (quizId studentId : Nat) : Except Unit (Db × Nat) :=
  if (findAttempt db quizId studentId).isSome then .error ()
  else .ok
    ({ db with attempts := db.attempts ++ [newAttempt db quizId studentId],
               nextAttemptId := db.nextAttemptId + 1 },
     db.nextAttemptId)

/-- HTTP responses of the embedded routes (status category plus the
message or payload the source sends). -/
inductive Resp where
  | okDetails (attempt : Attempt)
  | okStart (attempt_id : Nat) (msg : String)
  | okResume (attempt : Attempt)
  | okSubmit (score : Nat) (total_marks : Int) (percentage : ℚ)
  | badRequest (msg : String)
  | forbidden (msg : String)
  | notFound (msg : String)
  | serverError
deriving Repr

/-- `POST /quizzes/:id/start` lines 252-258: the attempt-creation step,
run against the state the INSERT sees.  There is no `try`/`catch` around
this INSERT, so a duplicate-key failure propagates to the route's outer
catch and surfaces as a 500 server error. -/
def startCreatePhase (dbAtInsert : Db) (quizId studentId : Nat) : Resp × Db :=
  match insertAttempt dbAtInsert quizId studentId with
  | .ok (db', attemptId) => (.okStart attemptId "Quiz attempt started", db')
  | .error _ => (.serverError, dbAtInsert)

/-- `GET /quizzes/details/:id` lines 126-157: the ensure-attempt step, run
against the state the INSERT sees.  A duplicate-key failure is caught and
answered by re-fetching the existing row; only if the re-fetch also finds
nothing is the insert error rethrown (500). -/
def detailsEnsurePhase (dbAtInsert : Db) (quizId studentId : Nat) :
    Except Resp (Db × Attempt) :=
  match insertAttempt dbAtInsert quizId studentId with
  | .ok (db', _) => .ok (db', newAttempt dbAtInsert quizId studentId)
  | .error _ =>
    match findAttempt dbAtInsert quizId studentId with
    | some a =>
      if a.submitted_at.isSome then
        .error (.forbidden "You have already submitted this quiz")
      else .ok (dbAtInsert, a)
    | none => .error .serverError

/-- `POST /quizzes/:id/start` (student.js lines 215-262).  Note: after the
quiz lookup and the enrollment check there is no `is_active` and no
start/end-window check. -/
def startHandler (db : Db) (quizId studentId : Nat) : Resp × Db :=
  match findQuiz db quizId with
  | none => (.notFound "Quiz not found", db)
  | some quiz =>
    if ¬ enrolled db studentId quiz.subject_id then
      (.forbidden "You are not enrolled in this subject", db)
    else
      match findAttempt db quizId studentId with
      | some a =>
        if a.submitted_at.isSome then
          (.forbidden "You have already submitted this quiz", db)
        else (.okResume a, db)
      | none => startCreatePhase db quizId studentId

/-- The request body check of the submit route (lines 267-271):
`!answers || typeof answers !== 'object'`. -/
def validAnswersBody (answers : JSVal) : Bool :=
  answers.truthy && answers.isObjectType

/-- The tail of the submit route once an unsubmitted attempt id is at
hand (student.js lines 315-391): load questions (400 if none — note the
state mutated by a prior INSERT is kept), grade, and commit the one-time
update of answers, score, percentage and `submitted_at = NOW()`. -/
def finishSubmit (db : Db) (quiz : Quiz) (attemptId : Nat) (answers : JSVal)
    (now : Int) : Resp × Db :=
  let questions := questionsFor db quiz.id
  if questions.isEmpty then (.badRequest "No questions found for this quiz", db)
  else
    let totalScore := gradeScore questions answers
    let percentage := computePercentage totalScore quiz.total_marks
    let db₂ := { db with attempts := db.attempts.map (fun a =>
      if a.id == attemptId then
        { a with answers := answers, score := totalScore,
                 percentage := percentage, submitted_at := some now }
      else a) }
    (.okSubmit totalScore quiz.total_marks percentage, db₂)

/-- `POST /quizzes/:id/submit` (student.js lines 265-396).  Note: after
the quiz lookup and the enrollment check there is no `is_active` and no
start/end-window check; a missing attempt is auto-created before the
questions are loaded. -/
def submitHandler (db : Db) (quizId studentId : Nat) (answers : JSVal)
    (now : Int) : Resp × Db :=
  if ¬ validAnswersBody answers then
    (.badRequest "Answers are required and must be an object", db)
  else
    match findQuiz db quizId with
    | none => (.notFound "Quiz not found", db)
    | some quiz =>
      if ¬ enrolled db studentId quiz.subject_id then
        (.forbidden "You are not enrolled in this subject", db)
      else
        match findAttempt db quizId studentId with
        | some a =>
          if a.submitted_at.isSome then
            (.forbidden "Quiz already submitted", db)
          else finishSubmit db quiz a.id answers now
        | none =>
          match insertAttempt db quizId studentId with
          | .ok (db₁, attemptId) => finishSubmit db₁ quiz attemptId answers now
          | .error _ => (.serverError, db)

/-- `GET /quizzes/details/:id` (student.js lines 75-212): enrollment,
`is_active`, window and already-submitted checks, then ensure-attempt and
the no-questions check.  (`now` is the server clock; `new Date(d) > now`
comparisons are on the modelled integer timestamps.) -/
def detailsHandler (db : Db) (quizId studentId : Nat) (now : Int) : Resp × Db :=
  match findQuiz db quizId with
  | none => (.notFound "Quiz not found", db)
  | some quiz =>
    if ¬ enrolled db studentId quiz.subject_id then
      (.forbidden "You are not enrolled in this subject", db)
    else if ¬ quiz.is_active then (.forbidden "This quiz is not active", db)
    else if (quiz.start_date.map (fun s => decide (s > now))).getD false then
      (.forbidden "This quiz has not started yet", db)
    else if (quiz.end_date.map (fun e => decide (e < now))).getD false then
      (.forbidden "This quiz has ended", db)
    else
      match findAttempt db quizId studentId with
      | some a =>
        if a.submitted_at.isSome then
          (.forbidden "You have already submitted this quiz", db)
        else
          if (questionsFor db quizId).isEmpty then
            (.badRequest "No questions found for this quiz", db)
          else (.okDetails a, db)
      | none =>
        match detailsEnsurePhase db quizId studentId with
        | .error r => (r, db)
        | .ok (db₁, a) =>
          if (questionsFor db₁ quizId).isEmpty then
            (.badRequest "No questions found for this quiz", db₁)
          else (.okDetails a, db₁)

/-! ## Spec-side renderings used for refinement comparisons -/

def JSVal.isUndef : JSVal → Bool
  | .undefined => true
  | _ => false

/-- Rendering of the specification's words for the answer-key lookup
(§4.3 step 1): the first *defined* value among `answers[i]`,
`answers[String(i)]` and `answers["question-<i>"]` in that priority
order, else the empty string.  (On the modelled JS objects the numeric
key and its string form read the same property.)  To be compared with
`getStudentAnswer`, the lookup the source actually performs. -/
def firstDefinedLookup (answers : JSVal) (index : Nat) : JSVal :=
  let a := jsGetProp answers (toString index)
  let b := jsGetProp answers ("question-" ++ toString index)
  if ¬ a.isUndef then a else if ¬ b.isUndef then b else .str ""

/-- The lookup rule the source's `||` chain actually implements: the
first *truthy* value among the candidates, else the empty string. -/
def firstTruthyLookup (answers : JSVal) (index : Nat) : JSVal :=
  let a := jsGetProp answers (toString index)
  let b := jsGetProp answers ("question-" ++ toString index)
  if a.truthy then a else if b.truthy then b else .str ""

/-- Placeholder used only as the `getD` default when summing credits. -/
def defaultQuestion : Question :=
  { id := 0, quiz_id := 0, question_type := "", marks := 0,
    options := .null, correct_answer := none }

/-! ## Concrete instances used by witnesses and counterexamples -/

/-- The spec §8 scenario question: MCQ worth 10,
options `["Paris","London","Berlin"]` stored serialized,
`correct_answer = "0"`. -/
def exQuestionParis : Question :=
  { id := 11, quiz_id := 1, question_type := "mcq", marks := 10,
    options := .str "[\"Paris\",\"London\",\"Berlin\"]",
    correct_answer := some "0" }

/-- An MCQ whose stored options fail to deserialize while the correct
answer is literal text. -/
def exQuestionBadOptions : Question :=
  { id := 12, quiz_id := 1, question_type := "mcq", marks := 10,
    options := .str "not valid json", correct_answer := some "Paris" }

/-- A short-answer question whose `correct_answer` column is NULL. -/
def exQuestionNoCorrect : Question :=
  { id := 13, quiz_id := 1, question_type := "short_answer", marks := 5,
    options := .null, correct_answer := none }

/-- An active quiz (id 1, subject 2, total 10, no window). -/
def exQuiz : Quiz :=
  { id := 1, subject_id := 2, total_marks := 10, is_active := true,
    start_date := none, end_date := none }

/-- An inactive quiz (id 1, subject 2). -/
def exQuizInactive : Quiz :=
  { id := 1, subject_id := 2, total_marks := 10, is_active := false,
    start_date := none, end_date := none }

/-- A submitted attempt of student 7 on quiz 1. -/
def exAttemptSubmitted : Attempt :=
  { id := 4, quiz_id := 1, student_id := 7, submitted_at := some 1000,
    score := 10, percentage := 100, answers := .obj [("0", .str "paris")] }

/-- An in-progress (unsubmitted) attempt of student 7 on quiz 1. -/
def exAttemptInProgress : Attempt :=
  { id := 4, quiz_id := 1, student_id := 7, submitted_at := none,
    score := 0, percentage := 0, answers := .null }

/-- State with a submitted attempt for (quiz 1, student 7). -/
def exDbSubmitted : Db :=
  { quizzes := [exQuiz], questions := [exQuestionParis],
    attempts := [exAttemptSubmitted], enrollments := [(7, 2)],
    nextAttemptId := 5 }

/-- State with an in-progress attempt for (quiz 1, student 7). -/
def exDbInProgress : Db :=
  { quizzes := [exQuiz], questions := [exQuestionParis],
    attempts := [exAttemptInProgress], enrollments := [(7, 2)],
    nextAttemptId := 5 }

/-- State with an inactive quiz, an enrolled student 7, no questions and
no attempt. -/
def exDbInactiveEmpty : Db :=
  { quizzes := [exQuizInactive], questions := [], attempts := [],
    enrollments := [(7, 2)], nextAttemptId := 5 }

/-! ## Theorems -/

lemma toFixed2_nonneg {x : ℚ} (h0 : 0 ≤ x) : 0 ≤ toFixed2 x := by
  unfold toFixed2
  have : (0 : ℤ) ≤ ⌊x * 100 + 1 / 2⌋ := by
    apply Int.floor_nonneg.mpr
    positivity
  positivity

lemma toFixed2_le_100 {x : ℚ} (h1 : x ≤ 100) : toFixed2 x ≤ 100 := by
  unfold toFixed2
  have hle : ⌊x * 100 + 1 / 2⌋ ≤ 10000 := by
    have : x * 100 + 1 / 2 ≤ 10000 + 1 / 2 := by linarith
    calc ⌊x * 100 + 1 / 2⌋ ≤ ⌊(10000 : ℚ) + 1 / 2⌋ := Int.floor_le_floor this
      _ = 10000 := by norm_num [Int.floor_eq_iff]
  have : ((⌊x * 100 + 1 / 2⌋ : ℚ)) ≤ 10000 := by exact_mod_cast hle
  linarith

/-- C3: the percentage written by the submit handler equals
`min(100, score / total_marks * 100)` rounded to two decimals when
`total_marks` is positive, is `0` (defined, no division) when
`total_marks` is zero or non-positive, and always lies in `[0, 100]`
— even when per-question marks sum above the declared total. -/
theorem percentage_clamped_and_total_marks_zero_safe (score : Nat) (tm : Int) :
    (0 < tm → computePercentage score tm =
      toFixed2 (min 100 ((score : ℚ) / (tm : ℚ) * 100))) ∧
    (tm ≤ 0 → computePercentage score tm = 0) ∧
    0 ≤ computePercentage score tm ∧ computePercentage score tm ≤ 100 := by
  unfold computePercentage
  by_cases h : 0 < tm
  · have htm : (0 : ℚ) < (tm : ℚ) := by exact_mod_cast h
    have hx0 : 0 ≤ min 100 ((score : ℚ) / (tm : ℚ) * 100) := by
      apply le_min (by norm_num)
      positivity
    have hx1 : min 100 ((score : ℚ) / (tm : ℚ) * 100) ≤ 100 := min_le_left _ _
    refine ⟨fun _ => by simp [h], fun h' => absurd h (not_lt.mpr h'), ?_, ?_⟩
    · simpa [h] using toFixed2_nonneg hx0
    · simpa [h] using toFixed2_le_100 hx1
  · refine ⟨fun h' => absurd h' h, fun _ => by simp [h], ?_, ?_⟩
    · simp [h]
    · simp [h]

/-- Witness for C3 at concrete inputs: `total_marks = 0` gives percentage
`0`, and an overshooting score (7 of declared total 3) stays within
`[0, 100]`. -/
theorem percentage_clamped_witness :
    computePercentage 3 0 = 0 ∧
    0 ≤ computePercentage 7 3 ∧ computePercentage 7 3 ≤ 100 :=
  ⟨(percentage_clamped_and_total_marks_zero_safe 3 0).2.1 (by norm_num),
   (percentage_clamped_and_total_marks_zero_safe 7 3).2.2.1,
   (percentage_clamped_and_total_marks_zero_safe 7 3).2.2.2⟩

/-- C2 counterexample: with `answers = {"0": "", "question-0": "paris"}`
the numeric-key value is *defined* (the empty string), so the claimed
first-defined rule would use `""`; the source's `||` chain skips the
defined-but-falsy value and uses the templated key's `"paris"`. -/
theorem answer_lookup_skips_defined_falsy_key :
    jsGetProp (.obj [("0", .str ""), ("question-0", .str "paris")]) "0"
      = .str "" ∧
    firstDefinedLookup (.obj [("0", .str ""), ("question-0", .str "paris")]) 0
      = .str "" ∧
    getStudentAnswer (.obj [("0", .str ""), ("question-0", .str "paris")]) 0
      = .str "paris" ∧
    getStudentAnswer (.obj [("0", .str ""), ("question-0", .str "paris")]) 0
      ≠ firstDefinedLookup (.obj [("0", .str ""), ("question-0", .str "paris")]) 0 := by
  refine ⟨rfl, rfl, rfl, ?_⟩
  intro h
  rw [show getStudentAnswer (.obj [("0", .str ""), ("question-0", .str "paris")]) 0
        = .str "paris" from rfl,
      show firstDefinedLookup (.obj [("0", .str ""), ("question-0", .str "paris")]) 0
        = .str "" from rfl] at h
  injection h with h'
  exact absurd h' (by decide)

/-- C2 amended: for every question ordinal and answers mapping, the
answer used is the first *truthy* value among the numeric key (which
coincides with its string form as a JS property), then the templated
`question-<i>` key, defaulting to `''`; defined-but-falsy values are
skipped, and a truthy higher-priority value wins even when
lower-priority keys are present. -/
theorem answer_lookup_is_first_truthy (answers : JSVal) (index : Nat) :
    getStudentAnswer answers index = firstTruthyLookup answers index := by
  unfold getStudentAnswer firstTruthyLookup jsOr
  by_cases h1 : (jsGetProp answers (toString index)).truthy <;>
    by_cases h2 : (jsGetProp answers ("question-" ++ toString index)).truthy <;>
      simp [h1, h2]

/-- C5: once the attempt of a (quiz, student) pair carries a submitted
timestamp, a well-formed submit request (valid answers body, quiz found,
student enrolled) is rejected with "Quiz already submitted" and a start
request with "You have already submitted this quiz", and in both cases
the state — in particular the stored score, percentage, answers and
submitted timestamp of the first submission — is returned unchanged, so
no re-grading occurs. -/
theorem submitted_attempt_is_terminal
    (db : Db) (quizId studentId : Nat) (answers : JSVal) (now t : Int)
    (quiz : Quiz) (a : Attempt)
    (hbody : validAnswersBody answers = true)
    (hq : findQuiz db quizId = some quiz)
    (he : enrolled db studentId quiz.subject_id = true)
    (ha : findAttempt db quizId studentId = some a)
    (hs : a.submitted_at = some t) :
    submitHandler db quizId studentId answers now =
      (.forbidden "Quiz already submitted", db) ∧
    startHandler db quizId studentId =
      (.forbidden "You have already submitted this quiz", db) := by
  constructor
  · unfold submitHandler
    rw [hq, ha]
    simp [hbody, he, hs]
  · unfold startHandler
    rw [hq, ha]
    simp [he, hs]

/-- Witness for C5 at a concrete state: quiz 1, student 7 with a
submitted attempt; both follow-up requests are rejected and the state is
unchanged. -/
theorem submitted_attempt_is_terminal_witness :
    submitHandler exDbSubmitted 1 7 (.obj [("0", .str "london")]) 2000 =
      (.forbidden "Quiz already submitted", exDbSubmitted) ∧
    startHandler exDbSubmitted 1 7 =
      (.forbidden "You have already submitted this quiz", exDbSubmitted) :=
  submitted_attempt_is_terminal exDbSubmitted 1 7 (.obj [("0", .str "london")])
    2000 1000 exQuiz exAttemptSubmitted (by decide) rfl (by decide) rfl rfl

/-- C6 counterexample: with an inactive quiz (and the student enrolled,
no prior attempt), the explicit start transition succeeds and creates the
attempt instead of rejecting — the activity/window re-verification the
claim asserts for every transition does not happen on start. -/
theorem start_ignores_inactive_quiz :
    exQuizInactive.is_active = false ∧
    findQuiz exDbInactiveEmpty 1 = some exQuizInactive ∧
    startHandler exDbInactiveEmpty 1 7 =
      (.okStart 5 "Quiz attempt started",
       { exDbInactiveEmpty with
           attempts := [newAttempt exDbInactiveEmpty 1 7],
           nextAttemptId := 6 }) := by
  refine ⟨rfl, rfl, ?_⟩
  rfl

/-- C6 amended: the detail-view transition re-verifies enrollment, the
active flag and the start/end window, rejecting on each; the explicit
start and submit transitions re-verify only enrollment — they perform no
activity or window check at all (start succeeds and submit proceeds to
grading whatever `is_active` and the window say). -/
theorem activity_window_checked_only_on_details
    (db : Db) (quizId studentId : Nat) (now : Int) (quiz : Quiz)
    (hq : findQuiz db quizId = some quiz) :
    (¬ enrolled db studentId quiz.subject_id →
      detailsHandler db quizId studentId now =
        (.forbidden "You are not enrolled in this subject", db) ∧
      startHandler db quizId studentId =
        (.forbidden "You are not enrolled in this subject", db) ∧
      ∀ answers now', validAnswersBody answers = true →
        submitHandler db quizId studentId answers now' =
          (.forbidden "You are not enrolled in this subject", db)) ∧
    (enrolled db studentId quiz.subject_id → ¬ quiz.is_active →
      detailsHandler db quizId studentId now =
        (.forbidden "This quiz is not active", db)) ∧
    (∀ s, enrolled db studentId quiz.subject_id → quiz.is_active →
      quiz.start_date = some s → s > now →
      detailsHandler db quizId studentId now =
        (.forbidden "This quiz has not started yet", db)) ∧
    (∀ e, enrolled db studentId quiz.subject_id → quiz.is_active →
      (quiz.start_date.map (fun s => decide (s > now))).getD false = false →
      quiz.end_date = some e → e < now →
      detailsHandler db quizId studentId now =
        (.forbidden "This quiz has ended", db)) ∧
    (enrolled db studentId quiz.subject_id →
      findAttempt db quizId studentId = none →
      startHandler db quizId studentId =
        (.okStart db.nextAttemptId "Quiz attempt started",
         { db with attempts := db.attempts ++ [newAttempt db quizId studentId],
                   nextAttemptId := db.nextAttemptId + 1 })) ∧
    (∀ answers now' a, enrolled db studentId quiz.subject_id →
      validAnswersBody answers = true →
      findAttempt db quizId studentId = some a → a.submitted_at = none →
      submitHandler db quizId studentId answers now' =
        finishSubmit db quiz a.id answers now') := by
  refine ⟨?_, ?_, ?_, ?_, ?_, ?_⟩
  · intro hne
    refine ⟨?_, ?_, ?_⟩
    · unfold detailsHandler; rw [hq]; simp [hne]
    · unfold startHandler; rw [hq]; simp [hne]
    · intro answers now' hbody
      unfold submitHandler; rw [hq]; simp [hbody, hne]
  · intro he hia
    unfold detailsHandler; rw [hq]; simp [he, hia]
  · intro s he hia hs hlt
    unfold detailsHandler; rw [hq]
    simp [he, hia, hs, hlt]
  · intro e he hia hs hend hlt
    unfold detailsHandler; rw [hq]
    simp [he, hia, hs, hend, hlt]
  · intro he hnone
    unfold startHandler startCreatePhase insertAttempt; rw [hq, hnone]
    simp [he, hnone]
  · intro answers now' a he hbody ha hsub
    unfold submitHandler; rw [hq, ha]
    simp [hbody, he, hsub]

/-- Witness for the C6 amended theorem at a concrete state: the
detail-view rejects the inactive quiz while start creates the attempt. -/
theorem activity_window_checked_only_on_details_witness :
    detailsHandler exDbInactiveEmpty 1 7 0 =
      (.forbidden "This quiz is not active", exDbInactiveEmpty) ∧
    startHandler exDbInactiveEmpty 1 7 =
      (.okStart 5 "Quiz attempt started",
       { exDbInactiveEmpty with
           attempts := exDbInactiveEmpty.attempts ++
             [newAttempt exDbInactiveEmpty 1 7],
           nextAttemptId := exDbInactiveEmpty.nextAttemptId + 1 }) :=
  ⟨(activity_window_checked_only_on_details exDbInactiveEmpty 1 7 0
      exQuizInactive rfl).2.1 (by decide) (by decide),
   (activity_window_checked_only_on_details exDbInactiveEmpty 1 7 0
      exQuizInactive rfl).2.2.2.2.1 (by decide) rfl⟩

/-- C10 (implicit): a submit for a quiz with no questions by a student
with no pre-existing attempt is rejected with the no-questions
validation error only *after* a fresh in-progress attempt row has been
inserted: the returned state keeps the new unsubmitted attempt, so the
failed submission is not atomic. -/
theorem submit_no_questions_keeps_created_attempt
    (db : Db) (quizId studentId : Nat) (answers : JSVal) (now : Int)
    (quiz : Quiz)
    (hbody : validAnswersBody answers = true)
    (hq : findQuiz db quizId = some quiz)
    (he : enrolled db studentId quiz.subject_id = true)
    (hnoatt : findAttempt db quizId studentId = none)
    (hnoq : questionsFor db quiz.id = []) :
    submitHandler db quizId studentId answers now =
      (.badRequest "No questions found for this quiz",
       { db with attempts := db.attempts ++ [newAttempt db quizId studentId],
                 nextAttemptId := db.nextAttemptId + 1 }) ∧
    (newAttempt db quizId studentId).submitted_at = none := by
  refine ⟨?_, rfl⟩
  unfold submitHandler insertAttempt finishSubmit
  rw [hq, hnoatt]
  simp [hbody, he, hnoatt, questionsFor] at *
  simp [hbody, he, hnoatt, hnoq, questionsFor] at *

/-- Witness for C10 at a concrete state: quiz 1 has no questions and
student 7 has no attempt; the submit is rejected but the state returned
carries the freshly created in-progress attempt. -/
theorem submit_no_questions_keeps_created_attempt_witness :
    submitHandler exDbInactiveEmpty 1 7 (.obj [("0", .str "paris")]) 100 =
      (.badRequest "No questions found for this quiz",
       { exDbInactiveEmpty with
           attempts := exDbInactiveEmpty.attempts ++
             [newAttempt exDbInactiveEmpty 1 7],
           nextAttemptId := exDbInactiveEmpty.nextAttemptId + 1 }) ∧
    (newAttempt exDbInactiveEmpty 1 7).submitted_at = none :=
  submit_no_questions_keeps_created_attempt exDbInactiveEmpty 1 7
    (.obj [("0", .str "paris")]) 100 exQuizInactive (by decide) rfl (by decide)
    rfl (by simp [questionsFor, exDbInactiveEmpty])

/-- C9 counterexample: when the attempt row already exists at INSERT time
(the losing side of a duplicate-creation race), the explicit-start
creation step hits the uniqueness violation and surfaces a server error —
it does not re-fetch and return the existing attempt as the claim states
for every start-of-attempt operation. -/
theorem start_create_race_surfaces_error :
    findAttempt exDbInProgress 1 7 = some exAttemptInProgress ∧
    insertAttempt exDbInProgress 1 7 = .error () ∧
    startCreatePhase exDbInProgress 1 7 = (.serverError, exDbInProgress) := by
  refine ⟨rfl, ?_, ?_⟩ <;> rfl

/-- C9 amended: only the detail-view creation path recovers from a
uniqueness violation on (quiz, student): it re-fetches the existing row
and proceeds with it (or rejects as already-submitted when that row has a
submitted timestamp); the explicit-start path has no such recovery and
surfaces the insert failure as a server error. -/
theorem insert_race_recovered_only_on_details
    (db : Db) (quizId studentId : Nat) (a : Attempt)
    (ha : findAttempt db quizId studentId = some a) :
    insertAttempt db quizId studentId = .error () ∧
    detailsEnsurePhase db quizId studentId =
      (if a.submitted_at.isSome then
        .error (.forbidden "You have already submitted this quiz")
       else .ok (db, a)) ∧
    startCreatePhase db quizId studentId = (.serverError, db) := by
  have hins : insertAttempt db quizId studentId = .error () := by
    unfold insertAttempt
    simp [ha]
  refine ⟨hins, ?_, ?_⟩
  · unfold detailsEnsurePhase
    rw [hins, ha]
  · unfold startCreatePhase
    rw [hins]

/-- Witness for the C9 amended theorem: with an existing unsubmitted
attempt the detail-view creation step returns that attempt while the
start step fails with a server error; with an existing submitted attempt
the detail-view step rejects as already submitted. -/
theorem insert_race_recovered_only_on_details_witness :
    detailsEnsurePhase exDbInProgress 1 7 = .ok (exDbInProgress, exAttemptInProgress) ∧
    startCreatePhase exDbInProgress 1 7 = (.serverError, exDbInProgress) ∧
    detailsEnsurePhase exDbSubmitted 1 7 =
      .error (.forbidden "You have already submitted this quiz") := by
  refine ⟨?_, ?_, ?_⟩
  · have h := (insert_race_recovered_only_on_details exDbInProgress 1 7
      exAttemptInProgress rfl).2.1
    simpa using h
  · exact (insert_race_recovered_only_on_details exDbInProgress 1 7
      exAttemptInProgress rfl).2.2
  · have h := (insert_race_recovered_only_on_details exDbSubmitted 1 7
      exAttemptSubmitted rfl).2.1
    simpa using h

lemma normalizeStr_empty : normalizeStr "" = "" := rfl

lemma jsParseInt_empty : jsParseInt "" = none := rfl

lemma trim_ne_of_normalizeVal_ne {v : JSVal} (h : normalizeVal v ≠ "") :
    jsTrim v.toStr ≠ "" := by
  intro h'
  apply h
  unfold normalizeVal
  rw [h']
  rfl

lemma str_ne_empty_of_normalizeStr_ne {s : String} (h : normalizeStr s ≠ "") :
    s ≠ "" := by
  intro hs
  exact h (hs ▸ normalizeStr_empty)

lemma normalizeVal_str (s : String) : normalizeVal (.str s) = normalizeStr s := rfl

/-- C1: for an MCQ whose stored options deserialize to a list of option
strings, the grading engine credits a non-empty submitted answer exactly
when its normalized form equals the normalized `correct_answer` text, or
`correct_answer` parses (JS `parseInt` semantics) as a non-negative
integer that is a valid index into the options list and the normalized
answer equals the normalized text of that option. -/
theorem mcq_resolver_accepts_text_or_index
    (q : Question) (answers : JSVal) (index : Nat) (xs : List String)
    (hm : q.question_type = "mcq") (hopt : q.options.truthy = true)
    (hparse : deserializeOptions q.options = some (.arr (xs.map JSVal.str)))
    (hmarks : 0 < q.marks)
    (htruthy : (getStudentAnswer answers index).truthy = true)
    (hne : normalizeVal (getStudentAnswer answers index) ≠ "") :
    questionCredit q index answers = q.marks ↔
      normalizeVal (getStudentAnswer answers index) = normCorrect q ∨
      ∃ idx : Nat, jsParseInt (normCorrect q) = some (idx : Int) ∧
        idx < xs.length ∧
        normalizeVal (getStudentAnswer answers index) =
          normalizeStr (xs.getD idx "") := by
  have hguard := trim_ne_of_normalizeVal_ne hne
  have hmarks' : q.marks ≠ 0 := Nat.pos_iff_ne_zero.mp hmarks
  by_cases hnc : normCorrect q = ""
  · have e1 : questionCredit q index answers = 0 := by
      simp [questionCredit, htruthy, hguard, hnc]
    rw [e1]
    constructor
    · intro h
      exact absurd h.symm hmarks'
    · rintro (h | ⟨idx, hpi, -, -⟩)
      · exact absurd (hnc ▸ h) hne
      · rw [hnc, jsParseInt_empty] at hpi
        exact Option.noConfusion hpi
  · have e1 : questionCredit q index answers =
        (if normalizeVal (getStudentAnswer answers index) = normCorrect q then q.marks
         else
           match jsParseInt (normCorrect q) with
           | none => 0
           | some idx =>
             if (jsIndex (.arr (xs.map JSVal.str)) idx).truthy = true ∧
                 normalizeVal (getStudentAnswer answers index) =
                   normalizeVal (jsIndex (.arr (xs.map JSVal.str)) idx) then q.marks
             else 0) := by
      simp only [questionCredit, hparse]
      rw [if_pos ⟨htruthy, hguard⟩, if_neg hnc, if_pos ⟨hm, hopt⟩]
    rw [e1]
    by_cases hdir : normalizeVal (getStudentAnswer answers index) = normCorrect q
    · simp [hdir]
    · rw [if_neg hdir]
      cases hpi : jsParseInt (normCorrect q) with
      | none =>
        simp only [hdir, false_or]
        constructor
        · intro h
          exact absurd h.symm hmarks'
        · rintro ⟨idx, hpi', -, -⟩
          exact Option.noConfusion hpi'
      | some i =>
        simp only [hdir, false_or]
        rcases lt_or_le i 0 with hneg | hneg
        · have hidx : jsIndex (.arr (xs.map JSVal.str)) i = .undefined := by
            simp [jsIndex, hneg]
          rw [hidx]
          have hcond : ¬ ((JSVal.undefined.truthy = true) ∧
              normalizeVal (getStudentAnswer answers index) =
                normalizeVal JSVal.undefined) := by
            rintro ⟨hc, -⟩
            simp [JSVal.truthy] at hc
          rw [if_neg hcond]
          constructor
          · intro h
            exact absurd h.symm hmarks'
          · rintro ⟨idx, hpi', -, -⟩
            have : (idx : Int) = i := (Option.some.injEq _ _).mp hpi'.symm
            omega
        · have hin : ((i.toNat : Nat) : Int) = i := Int.toNat_of_nonneg hneg
          rcases lt_or_le i.toNat xs.length with hltn | hge
          · have hGD : xs.getD i.toNat "" = xs[i.toNat] :=
              List.getD_eq_getElem xs "" hltn
            have hget : (xs.map JSVal.str).get? i.toNat =
                some (.str (xs.get ⟨i.toNat, hltn⟩)) := by
              simp [List.get?_eq_getElem?, List.getElem?_eq_getElem, hltn]
            have hidx : jsIndex (.arr (xs.map JSVal.str)) i =
                .str (xs.get ⟨i.toNat, hltn⟩) := by
              simp only [jsIndex, if_neg (not_lt.mpr hneg), hget]
            rw [hidx]
            have hgetEq : xs.get ⟨i.toNat, hltn⟩ = xs[i.toNat] := rfl
            constructor
            · intro h
              by_cases hc : ((JSVal.str (xs.get ⟨i.toNat, hltn⟩)).truthy = true) ∧
                  normalizeVal (getStudentAnswer answers index) =
                    normalizeVal (.str (xs.get ⟨i.toNat, hltn⟩))
              · refine ⟨i.toNat, by rw [hin], hltn, ?_⟩
                rw [hGD, ← hgetEq, ← normalizeVal_str]
                exact hc.2
              · rw [if_neg hc] at h
                exact absurd h.symm hmarks'
            · rintro ⟨idx, hpi', hlen, heq⟩
              have hidx' : (idx : Int) = i := (Option.some.injEq _ _).mp hpi'.symm
              have hidx2 : idx = i.toNat := by omega
              rw [hidx2, hGD, ← hgetEq] at heq
              have hs : xs.get ⟨i.toNat, hltn⟩ ≠ "" := by
                apply str_ne_empty_of_normalizeStr_ne
                rw [← heq]
                exact hne
              rw [if_pos ⟨by simpa [JSVal.truthy] using hgetEq ▸ hs, by
                rw [normalizeVal_str]
                exact heq⟩]
          · have hidx : jsIndex (.arr (xs.map JSVal.str)) i = .undefined := by
              simp only [jsIndex, if_neg (not_lt.mpr hneg)]
              rw [List.get?_eq_none.mpr (by simpa using hge)]
            rw [hidx]
            have hcond : ¬ ((JSVal.undefined.truthy = true) ∧
                normalizeVal (getStudentAnswer answers index) =
                  normalizeVal JSVal.undefined) := by
              rintro ⟨hc, -⟩
              simp [JSVal.truthy] at hc
            rw [if_neg hcond]
            constructor
            · intro h
              exact absurd h.symm hmarks'
            · rintro ⟨idx, hpi', hlen, -⟩
              have : (idx : Int) = i := (Option.some.injEq _ _).mp hpi'.symm
              omega

/-- Witness for C1 on the spec §8 scenario: options
`["Paris","London","Berlin"]`, `correct_answer = "0"`; the instance of
the resolver equivalence at the submitted answer `"pArIs "`. -/
theorem mcq_resolver_accepts_text_or_index_witness :
    questionCredit exQuestionParis 0 (.obj [("0", .str "pArIs ")]) =
        exQuestionParis.marks ↔
      normalizeVal (getStudentAnswer (.obj [("0", .str "pArIs ")]) 0) =
          normCorrect exQuestionParis ∨
      ∃ idx : Nat, jsParseInt (normCorrect exQuestionParis) = some (idx : Int) ∧
        idx < (["Paris", "London", "Berlin"] : List String).length ∧
        normalizeVal (getStudentAnswer (.obj [("0", .str "pArIs ")]) 0) =
          normalizeStr ((["Paris", "London", "Berlin"] : List String).getD idx "") :=
  mcq_resolver_accepts_text_or_index exQuestionParis
    (.obj [("0", .str "pArIs ")]) 0 ["Paris", "London", "Berlin"]
    rfl (by decide) rfl (by decide) (by decide) (by decide)

/-- C4 counterexample: `exQuestionBadOptions` stores options that fail to
deserialize while `correct_answer` is the literal text "Paris"; the
submitted answer "paris" normalizes to exactly the normalized correct
answer, yet the grading engine awards 0 instead of the claimed
literal-text-fallback credit (its `catch` only logs). -/
theorem grading_no_literal_fallback_on_bad_options :
    deserializeOptions exQuestionBadOptions.options = none ∧
    normalizeVal (getStudentAnswer (.obj [("0", .str "paris")]) 0) =
      normCorrect exQuestionBadOptions ∧
    exQuestionBadOptions.marks = 10 ∧
    questionCredit exQuestionBadOptions 0 (.obj [("0", .str "paris")]) = 0 := by
  exact ⟨rfl, rfl, rfl, rfl⟩

/-- C4 amended: when a multiple-choice question's stored options value
fails to deserialize, neither grading nor analytics throws, but they
diverge: the grading engine awards 0 for that question even when the
normalized submitted answer equals the normalized `correct_answer`
(its catch block has no literal fallback), while the analytics
aggregator's catch block does fall back to literal-text comparison and
still tallies such an answer as correct. -/
theorem bad_options_failsoft_split
    (q : Question) (answers : JSVal) (index : Nat)
    (hm : q.question_type = "mcq") (hopt : q.options.truthy = true)
    (hbad : deserializeOptions q.options = none) :
    questionCredit q index answers = 0 ∧
    ((getStudentAnswer answers index).truthy = true →
      (analyticsTally q index answers = true ↔
        normalizeVal (getStudentAnswer answers index) = normCorrect q)) := by
  constructor
  · unfold questionCredit
    by_cases hg : (getStudentAnswer answers index).truthy = true ∧
        jsTrim (getStudentAnswer answers index).toStr ≠ ""
    · rw [if_pos hg]
      by_cases hnc : normCorrect q = ""
      · rw [if_pos hnc]
      · rw [if_neg hnc, if_pos ⟨hm, hopt⟩, hbad]
    · rw [if_neg hg]
  · intro htruthy
    unfold analyticsTally
    rw [if_pos htruthy, if_pos ⟨hm, hopt⟩, hbad]
    simp

/-- Witness for the C4 amended theorem on `exQuestionBadOptions` with the
literally-correct submitted answer "paris": grading awards 0 while
analytics tallies it correct. -/
theorem bad_options_failsoft_split_witness :
    questionCredit exQuestionBadOptions 0 (.obj [("question-0", .str "PARIS")]) = 0 ∧
    (analyticsTally exQuestionBadOptions 0 (.obj [("question-0", .str "PARIS")]) = true ↔
      normalizeVal (getStudentAnswer (.obj [("question-0", .str "PARIS")]) 0) =
        normCorrect exQuestionBadOptions) :=
  ⟨(bad_options_failsoft_split exQuestionBadOptions
      (.obj [("question-0", .str "PARIS")]) 0 rfl (by decide) rfl).1,
   (bad_options_failsoft_split exQuestionBadOptions
      (.obj [("question-0", .str "PARIS")]) 0 rfl (by decide) rfl).2 (by decide)⟩

lemma gradeScoreAux_eq_sum (answers : JSVal) (qs : List Question) (start : Nat) :
    gradeScoreAux answers qs start =
      ∑ j in Finset.range qs.length,
        questionCredit (qs.getD j defaultQuestion) (start + j) answers := by
  induction qs generalizing start with
  | nil => simp [gradeScoreAux]
  | cons q rest ih =>
    rw [gradeScoreAux, ih (start + 1), List.length_cons, Finset.sum_range_succ']
    simp only [List.getD_cons_succ, List.getD_cons_zero, Nat.add_zero]
    rw [Nat.add_comm (questionCredit q start answers)]
    congr 1
    apply Finset.sum_congr rfl
    intro j _
    congr 1
    omega

/-- C7: grading is total and fail-soft — the score decomposes as the sum
of the per-question credits (so a failing question never aborts the loop:
each question contributes independently at its own ordinal), a question
with a missing/blank `correct_answer` or with undeserializable options
contributes exactly 0, and the analytics aggregation likewise never
aborts: an attempt whose stored answers fail to parse is merely not
counted correct while still appearing in `total_attempts`.
(Per-question exceptions — `JSON.parse` failures, property access on
non-objects — are modelled by total functions, mirroring the source's
per-question `try`/`catch`.) -/
theorem grading_failsoft_and_total
    (answers : JSVal) (qs : List Question) (q : Question) (i : Nat)
    (hmal : normCorrect q = "" ∨
      (q.question_type = "mcq" ∧ q.options.truthy = true ∧
        deserializeOptions q.options = none)) :
    questionCredit q i answers = 0 ∧
    gradeScore qs answers =
      ∑ j in Finset.range qs.length,
        questionCredit (qs.getD j defaultQuestion) j answers ∧
    (∀ stored index, attemptAnswersVal stored = none →
      attemptCountsCorrect q index stored = false) ∧
    (∀ index atts, (analyzeQuestion q index atts).2.1 = atts.length) := by
  refine ⟨?_, ?_, ?_, ?_⟩
  · unfold questionCredit
    by_cases hg : (getStudentAnswer answers i).truthy = true ∧
        jsTrim (getStudentAnswer answers i).toStr ≠ ""
    · rw [if_pos hg]
      rcases hmal with hnc | ⟨hm, hopt, hbad⟩
      · rw [if_pos hnc]
      · by_cases hnc : normCorrect q = ""
        · rw [if_pos hnc]
        · rw [if_neg hnc, if_pos ⟨hm, hopt⟩, hbad]
    · rw [if_neg hg]
  · rw [gradeScore, gradeScoreAux_eq_sum]
    simp
  · intro stored index h
    unfold attemptCountsCorrect
    rw [h]
  · intro index atts
    rfl

/-- Witness for C7: a question with a NULL `correct_answer` contributes 0
while the spec-scenario question still earns its marks in the same list,
and an attempt with unparseable stored answers is skipped but counted. -/
theorem grading_failsoft_and_total_witness :
    questionCredit exQuestionNoCorrect 1 (.obj [("0", .str "paris"), ("1", .str "x")]) = 0 ∧
    gradeScore [exQuestionParis, exQuestionNoCorrect]
        (.obj [("0", .str "paris"), ("1", .str "x")]) =
      ∑ j in Finset.range
          ([exQuestionParis, exQuestionNoCorrect] : List Question).length,
        questionCredit
          (([exQuestionParis, exQuestionNoCorrect] : List Question).getD j
            defaultQuestion) j (.obj [("0", .str "paris"), ("1", .str "x")]) ∧
    (∀ stored index, attemptAnswersVal stored = none →
      attemptCountsCorrect exQuestionNoCorrect index stored = false) ∧
    (∀ index atts,
      (analyzeQuestion exQuestionNoCorrect index atts).2.1 = atts.length) :=
  grading_failsoft_and_total (.obj [("0", .str "paris"), ("1", .str "x")])
    [exQuestionParis, exQuestionNoCorrect] exQuestionNoCorrect 1 (Or.inl rfl)

/-- C8 amended: the analytics tally coincides with the grading engine's
marks award for a question and answers mapping provided the question is
well-formed (non-blank normalized `correct_answer`; options either not in
play or deserializing to an array) and the submitted answer, when truthy,
is not blank after trimming.  Outside those conditions the two sides
diverge (see the counterexample). -/
theorem analytics_tally_matches_grading
    (q : Question) (answers : JSVal) (index : Nat)
    (hC : normCorrect q ≠ "")
    (hmarks : 0 < q.marks)
    (hopts : ¬ (q.question_type = "mcq" ∧ q.options.truthy = true) ∨
             ∃ xs, deserializeOptions q.options = some (.arr xs))
    (hblank : (getStudentAnswer answers index).truthy = true →
              jsTrim (getStudentAnswer answers index).toStr ≠ "") :
    analyticsTally q index answers = true ↔
      questionCredit q index answers = q.marks := by
  have hmarks' : q.marks ≠ 0 := Nat.pos_iff_ne_zero.mp hmarks
  by_cases htr : (getStudentAnswer answers index).truthy = true
  · have hguard := hblank htr
    unfold analyticsTally questionCredit
    rw [if_pos htr, if_pos (⟨htr, hguard⟩ :
      (getStudentAnswer answers index).truthy = true ∧
        jsTrim (getStudentAnswer answers index).toStr ≠ ""), if_neg hC]
    by_cases hm2 : q.question_type = "mcq" ∧ q.options.truthy = true
    · rcases hopts with hno | ⟨xs, hxs⟩
      · exact absurd hm2 hno
      · rw [if_pos hm2, if_pos hm2]
        simp only [hxs]
        by_cases hdir : normalizeVal (getStudentAnswer answers index) = normCorrect q
        · simp [hdir]
        · rw [if_neg hdir, if_neg hdir]
          cases hpi : jsParseInt (normCorrect q) with
          | none =>
            simp only [Bool.false_eq_true, false_iff]
            omega
          | some i =>
            by_cases hc : (jsIndex (.arr xs) i).truthy = true ∧
                normalizeVal (getStudentAnswer answers index) =
                  normalizeVal (jsIndex (.arr xs) i)
            · simp only [if_pos hc, decide_eq_true_eq]
              simp [hc]
            · simp only [if_neg hc, decide_eq_true_eq]
              constructor
              · intro h
                exact absurd h hc
              · intro h
                exact absurd h.symm hmarks'
    · rw [if_neg hm2, if_neg hm2]
      by_cases hdir : normalizeVal (getStudentAnswer answers index) = normCorrect q
      · simp [hdir]
      · simp only [decide_eq_true_eq, if_neg hdir]
        constructor
        · intro h
          exact absurd h hdir
        · intro h
          exact absurd h.symm hmarks'
  · unfold analyticsTally questionCredit
    rw [if_neg htr, if_neg (fun h => htr h.1)]
    simp only [Bool.false_eq_true, false_iff]
    omega

/-- C8 counterexample: a short-answer question with a NULL
`correct_answer` and the submitted answer `"   "` (spaces) — the
analytics aggregator tallies the attempt as correct (its normalized ""
equals the normalized empty correct answer; it has no blank-answer and no
empty-correct-answer guard) while the grading engine awards 0 (its
trim guard skips the answer), so the tally is not equivalent to the marks
award. -/
theorem analytics_tally_diverges_from_grading :
    analyticsTally exQuestionNoCorrect 0 (.obj [("0", .str "   ")]) = true ∧
    questionCredit exQuestionNoCorrect 0 (.obj [("0", .str "   ")]) = 0 ∧
    exQuestionNoCorrect.marks = 5 :=
  ⟨rfl, rfl, rfl⟩

/-- Witness for the C8 amended theorem on the spec scenario question with
the (wrong) submitted answer "london". -/
theorem analytics_tally_matches_grading_witness :
    analyticsTally exQuestionParis 0 (.obj [("0", .str "london")]) = true ↔
      questionCredit exQuestionParis 0 (.obj [("0", .str "london")]) =
        exQuestionParis.marks :=
  analytics_tally_matches_grading exQuestionParis
    (.obj [("0", .str "london")]) 0 (by decide) (by decide)
    (Or.inr ⟨[.str "Paris", .str "London", .str "Berlin"], rfl⟩)
    (fun _ => by decide)
